import Mathlib

/-!
Shallow embedding of the driver-onboarding orchestration workflow:
the integration service (`performCompleteOnboarding`, `retryOnboardingStep`,
`updateOnboardingStepStatus`), the background-check service
(`performComprehensiveBackgroundCheck`, `generateSummary`) and the insurance
verification service (`performComprehensiveInsuranceVerification`,
`generateVerificationSummary`).

Modelling conventions:
* an adapter call that may throw is an `Except String r` (error = thrown
  message, modelled as nonempty in practice);
* a JS object used as an ordered step map is a `List (String × StepOutcome r)`
  in insertion order;
* a JS "truthy or absent" optional field is an `Option`;
* the JS status strings 'completed' | 'failed', 'pending' | 'completed' |
  'partial' | 'failed', 'low' | 'medium' | 'high' and 'adequate' |
  'insufficient' | 'expired' | 'unknown' are closed inductive types.
-/

namespace Onboarding

/-- Status of one step outcome: the strings 'completed' | 'failed'. -/
inductive StepStatus where
  | completed
  | failed
  deriving DecidableEq, Repr

/-- One step's outcome: `{status: 'completed', result}` or
`{status: 'failed', error}`. -/
inductive StepOutcome (r : Type) where
  | completed (result : r)
  | failed (error : String)
  deriving DecidableEq, Repr

def StepOutcome.status : StepOutcome r → StepStatus
  | .completed _ => .completed
  | .failed _ => .failed

/-- `step.status === 'completed'`. -/
def StepOutcome.isCompleted : StepOutcome r → Bool
  | .completed _ => true
  | .failed _ => false

/-- `step.status === 'failed'`. -/
def StepOutcome.isFailed : StepOutcome r → Bool
  | .completed _ => false
  | .failed _ => true

/-- The overall-status strings 'pending' | 'completed' | 'partial' |
'failed' (`partiallyCompleted` stands for the string 'partial'). -/
inductive OverallStatus where
  | pending
  | completed
  | partiallyCompleted
  | failed
  deriving DecidableEq, Repr

/-- The shared overall-status derivation: `if (completedSteps === totalSteps)
overallStatus = 'completed'; else if (completedSteps > 0) 'partial';
else 'failed'` (identical in the onboarding, background-check and insurance
workflows). -/
def deriveOverallStatus (completedSteps totalSteps : Nat) : OverallStatus :=
  if completedSteps = totalSteps then .completed
  else if completedSteps > 0 then .partiallyCompleted
  else .failed

/-- `Object.values(steps).filter(s => s.status === 'completed').length`. -/
def countCompleted (steps : List (String × StepOutcome r)) : Nat :=
  (steps.filter fun e => e.2.isCompleted).length

/-- Count of entries with status 'failed'. -/
def countFailed (steps : List (String × StepOutcome r)) : Nat :=
  (steps.filter fun e => e.2.isFailed).length

/-- Overall status of a recorded step map, as computed at the end of each
workflow run. -/
def aggregateStatus (steps : List (String × StepOutcome r)) : OverallStatus :=
  deriveOverallStatus (countCompleted steps) steps.length

/-! ## Promise fan-out machinery (`Promise.allSettled` over wrapped calls) -/

/-- One entry of a `Promise.allSettled` result array. -/
inductive Settled (v : Type) where
  | fulfilled (value : v)
  | rejected (reason : String)
  deriving DecidableEq, Repr

def Settled.isFulfilled : Settled v → Bool
  | .fulfilled _ => true
  | .rejected _ => false

/-- The value produced by `call.then(result => ({type, result}))
.catch(error => ({type, error: error.message}))`: the step's own type tag
together with the call's success or caught failure. -/
structure TaggedOutcome (r : Type) where
  type : String
  payload : Except String r
  deriving Repr

/-- A fallible adapter call as the recorded `StepOutcome`. -/
def toStepOutcome : Except String r → StepOutcome r
  | .ok v => .completed v
  | .error e => .failed e

/-- How one wrapped step promise settles: the `.catch` handler converts any
rejection of the underlying call into a fulfilled `{type, error}` value, so
the composite promise always fulfills. -/
def settleStep (type : String) (call : Except String r) : Settled (TaggedOutcome r) :=
  .fulfilled { type := type, payload := call }

/-- The settled array for a list of pushed `(type, call)` step promises. -/
def settleAll (pushes : List (String × Except String r)) : List (Settled (TaggedOutcome r)) :=
  pushes.map fun p => settleStep p.1 p.2

/-- `results.forEach((res, index) => ...)`: a fulfilled entry is recorded
under its own embedded type tag; a rejected entry is recorded under
`types[index]` (array-position recovery; `types.getD i "undefined"` models
the out-of-range `undefined` key). -/
def processSettledAux (types : List String) :
    Nat → List (Settled (TaggedOutcome r)) → List (String × StepOutcome r)
  | _, [] => []
  | i, x :: xs =>
    (match x with
     | .fulfilled v =>
       (v.type,
        match v.payload with
        | .ok res => StepOutcome.completed res
        | .error e => StepOutcome.failed e)
     | .rejected reason => (types.getD i "undefined", StepOutcome.failed reason))
    :: processSettledAux types (i + 1) xs

def processSettled (types : List String) (results : List (Settled (TaggedOutcome r))) :
    List (String × StepOutcome r) :=
  processSettledAux types 0 results

/-! ## Background-check service -/

/-- The per-check `summary` sub-object of a check result; only these fields
are read by `generateSummary` (`hasCriminalHistory` on the criminal check,
`totalViolations` on the driving check, `verified` on the employment check).
Absent fields behave like `undefined` under the source's reads, which the
defaults reproduce. -/
structure CheckSummary where
  hasCriminalHistory : Bool := false
  totalViolations : Nat := 0
  verified : Bool := false
  deriving DecidableEq, Repr

/-- Result payload of one background check. -/
structure CheckResult where
  summary : CheckSummary := {}
  deriving DecidableEq, Repr

/-- Outcomes the four check adapters would produce for this run. -/
structure BgAdapters where
  criminal : Except String CheckResult
  driving : Except String CheckResult
  employment : Except String CheckResult
  credit : Except String CheckResult
  deriving Repr

/-- The `checkPromises` array: criminal, driving and employment always; the
credit check appended iff `ENABLE_CREDIT_CHECK === 'true'`. -/
def backgroundPushes (creditEnabled : Bool) (a : BgAdapters) :
    List (String × Except String CheckResult) :=
  [("criminal", a.criminal), ("driving", a.driving), ("employment", a.employment)] ++
    (if creditEnabled then [("credit", a.credit)] else [])

def backgroundFanOut (creditEnabled : Bool) (a : BgAdapters) :
    List (Settled (TaggedOutcome CheckResult)) :=
  settleAll (backgroundPushes creditEnabled a)

/-- The positional recovery array `['criminal', 'driving', 'employment',
'credit']` used in the rejected branch. -/
def backgroundCheckTypes : List String := ["criminal", "driving", "employment", "credit"]

/-- The `results.checks` map recorded by the background-check fan-out. -/
def backgroundChecks (creditEnabled : Bool) (a : BgAdapters) :
    List (String × StepOutcome CheckResult) :=
  processSettled backgroundCheckTypes (backgroundFanOut creditEnabled a)

/-- The risk strings 'low' | 'medium' | 'high'. -/
inductive RiskLevel where
  | low
  | medium
  | high
  deriving DecidableEq, Repr

/-- The background-check summary object. -/
structure BgSummary where
  totalChecks : Nat
  completedChecks : Nat
  failedChecks : Nat
  riskLevel : RiskLevel
  flags : List String
  recommendations : List String
  deriving DecidableEq, Repr

/-- One iteration of `Object.entries(checks).forEach` in `generateSummary`:
counts the entry and applies the three risk rules in source order. Note that
the driving and employment rules assign `riskLevel = 'medium'`
unconditionally, overwriting an earlier 'high'. -/
def bgAnalyzeStep (s : BgSummary) (e : String × StepOutcome CheckResult) : BgSummary :=
  match e.2 with
  | .completed res =>
    let s := { s with completedChecks := s.completedChecks + 1 }
    let s :=
      if e.1 = "criminal" ∧ res.summary.hasCriminalHistory then
        { s with flags := s.flags ++ ["Criminal history detected"], riskLevel := .high }
      else s
    let s :=
      if e.1 = "driving" ∧ res.summary.totalViolations > 3 then
        { s with flags := s.flags ++ ["Multiple driving violations"], riskLevel := .medium }
      else s
    if e.1 = "employment" ∧ ¬ res.summary.verified then
      { s with flags := s.flags ++ ["Employment verification failed"], riskLevel := .medium }
    else s
  | .failed _ => { s with failedChecks := s.failedChecks + 1 }

/-- `generateSummary(checks)` of the background-check service. -/
def generateSummary (checks : List (String × StepOutcome CheckResult)) : BgSummary :=
  let base : BgSummary :=
    { totalChecks := checks.length, completedChecks := 0, failedChecks := 0,
      riskLevel := .low, flags := [], recommendations := [] }
  let s := checks.foldl bgAnalyzeStep base
  let recs :=
    if s.riskLevel = .high then
      ["Manual review required", "Additional documentation may be needed"]
    else if s.riskLevel = .medium then
      ["Review specific flagged items", "Consider additional verification"]
    else
      ["Standard onboarding process"]
  { s with recommendations := recs }

/-- Result of `performComprehensiveBackgroundCheck`. -/
structure BgRunResult where
  checks : List (String × StepOutcome CheckResult)
  overallStatus : OverallStatus
  summary : BgSummary
  deriving DecidableEq, Repr

def performComprehensiveBackgroundCheck (creditEnabled : Bool) (a : BgAdapters) : BgRunResult :=
  let checks := backgroundChecks creditEnabled a
  { checks := checks
    overallStatus := aggregateStatus checks
    summary := generateSummary checks }

/-! ## Insurance verification service -/

/-- Result payload of one insurance verification; only these nested fields
are read by `generateVerificationSummary` (`policyDetails.status` and
`coverage.liability` of the 'policy' verification). `none` models an absent
optional-chained field: `undefined === 'active'` is false and
`undefined < 50000` is false. -/
structure VerificationResult where
  policyDetailsStatus : Option String := none
  coverageLiability : Option Nat := none
  deriving DecidableEq, Repr

/-- `driverData.insuranceInfo` (only the field whose truthiness gates the
policy verification step). -/
structure InsuranceInfo where
  policyNumber : Option String := none
  deriving DecidableEq, Repr

/-- `driverData.vehicleInfo`. -/
structure VehicleInfo where
  vin : Option String := none
  deriving DecidableEq, Repr

/-- `driverData.businessInfo`. -/
structure BusinessInfo where
  businessName : Option String := none
  deriving DecidableEq, Repr

/-- The subject record, restricted to the fields that gate step scheduling;
the adapter-facing payload fields are abstracted into the adapter oracles. -/
structure DriverData where
  insuranceInfo : Option InsuranceInfo := none
  vehicleInfo : Option VehicleInfo := none
  businessInfo : Option BusinessInfo := none
  deriving DecidableEq, Repr

/-- `driverData.insuranceInfo?.policyNumber` is truthy. -/
def hasPolicyNumber (d : DriverData) : Bool :=
  match d.insuranceInfo with
  | some i => i.policyNumber.isSome
  | none => false

/-- `driverData.vehicleInfo?.vin` is truthy. -/
def hasVin (d : DriverData) : Bool :=
  match d.vehicleInfo with
  | some v => v.vin.isSome
  | none => false

/-- `driverData.businessInfo?.businessName` is truthy. -/
def hasBusinessName (d : DriverData) : Bool :=
  match d.businessInfo with
  | some b => b.businessName.isSome
  | none => false

/-- Outcomes the four insurance verification adapters would produce for this
run. -/
structure InsAdapters where
  policy : Except String VerificationResult
  driver : Except String VerificationResult
  vehicle : Except String VerificationResult
  commercial : Except String VerificationResult
  deriving Repr

/-- The `verificationPromises` array: the policy verification is pushed iff a
policy number is present, the driver-based search always, the vehicle
verification iff a VIN is present, the commercial verification iff a
business name is present — in that source order. -/
def insurancePushes (d : DriverData) (a : InsAdapters) :
    List (String × Except String VerificationResult) :=
  (if hasPolicyNumber d then [("policy", a.policy)] else []) ++
    [("driver", a.driver)] ++
    (if hasVin d then [("vehicle", a.vehicle)] else []) ++
    (if hasBusinessName d then [("commercial", a.commercial)] else [])

def insuranceFanOut (d : DriverData) (a : InsAdapters) :
    List (Settled (TaggedOutcome VerificationResult)) :=
  settleAll (insurancePushes d a)

/-- The positional recovery array `['policy', 'driver', 'vehicle',
'commercial']` used in the rejected branch. -/
def insuranceTypes : List String := ["policy", "driver", "vehicle", "commercial"]

/-- The `results.verifications` map recorded by the insurance fan-out. -/
def insuranceVerifications (d : DriverData) (a : InsAdapters) :
    List (String × StepOutcome VerificationResult) :=
  processSettled insuranceTypes (insuranceFanOut d a)

/-- The set of step types scheduled for a subject, as a function of the
subject's fields alone. -/
def scheduledInsuranceSteps (d : DriverData) : List String :=
  (if hasPolicyNumber d then ["policy"] else []) ++
    ["driver"] ++
    (if hasVin d then ["vehicle"] else []) ++
    (if hasBusinessName d then ["commercial"] else [])

/-- The coverage strings 'adequate' | 'insufficient' | 'expired' |
'unknown'. -/
inductive CoverageStatus where
  | adequate
  | insufficient
  | expired
  | unknown
  deriving DecidableEq, Repr

/-- `type === 'policy' && verification.status === 'completed' &&
verification.result?.policyDetails?.status === 'active'`. -/
def isActivePolicy (e : String × StepOutcome VerificationResult) : Bool :=
  e.1 == "policy" &&
    (match e.2 with
     | .completed res => res.policyDetailsStatus == some "active"
     | .failed _ => false)

/-- `type === 'policy' && completed && result?.policyDetails?.status ===
'expired'`. -/
def isExpiredPolicy (e : String × StepOutcome VerificationResult) : Bool :=
  e.1 == "policy" &&
    (match e.2 with
     | .completed res => res.policyDetailsStatus == some "expired"
     | .failed _ => false)

/-- `type === 'policy' && completed && result?.coverage?.liability < 50000`
(false when the field is absent, as for `undefined < 50000`). -/
def isUnderinsuredPolicy (e : String × StepOutcome VerificationResult) : Bool :=
  e.1 == "policy" &&
    (match e.2 with
     | .completed res =>
       (match res.coverageLiability with
        | some l => decide (l < 50000)
        | none => false)
     | .failed _ => false)

/-- The `hasActiveInsurance` flag accumulated by the forEach pass. -/
def hasActiveInsurance (vs : List (String × StepOutcome VerificationResult)) : Bool :=
  vs.any isActivePolicy

/-- The `hasExpiredInsurance` flag accumulated by the forEach pass. -/
def hasExpiredInsurance (vs : List (String × StepOutcome VerificationResult)) : Bool :=
  vs.any isExpiredPolicy

/-- The `hasInsufficientCoverage` flag accumulated by the forEach pass. -/
def hasInsufficientCoverage (vs : List (String × StepOutcome VerificationResult)) : Bool :=
  vs.any isUnderinsuredPolicy

/-- The insurance verification summary object. -/
structure InsSummary where
  totalVerifications : Nat
  completedVerifications : Nat
  failedVerifications : Nat
  coverageStatus : CoverageStatus
  flags : List String
  recommendations : List String
  deriving DecidableEq, Repr

/-- `generateVerificationSummary(verifications)` of the insurance service:
the single forEach pass counts completed/failed entries and accumulates the
three coverage flags (rendered here as the equivalent scans above), then the
if/else-if chain picks the coverage status — `insufficient` wins over
`expired` when both conditions hold. -/
def generateVerificationSummary (vs : List (String × StepOutcome VerificationResult)) :
    InsSummary :=
  let completed := (vs.filter fun e => e.2.isCompleted).length
  let failed := (vs.filter fun e => e.2.isFailed).length
  let hasAct := hasActiveInsurance vs
  let hasExp := hasExpiredInsurance vs
  let hasUnder := hasInsufficientCoverage vs
  let covFlags :=
    if hasAct && !hasExp && !hasUnder then (CoverageStatus.adequate, ([] : List String))
    else if hasAct && hasUnder then
      (CoverageStatus.insufficient, ["Insufficient liability coverage"])
    else if hasExp then (CoverageStatus.expired, ["Insurance policy expired"])
    else (CoverageStatus.unknown, ["Unable to verify insurance status"])
  let recs :=
    if covFlags.1 = CoverageStatus.adequate then
      ["Insurance verification passed", "Standard onboarding process"]
    else if covFlags.1 = CoverageStatus.insufficient then
      ["Increase liability coverage", "Contact insurance provider"]
    else if covFlags.1 = CoverageStatus.expired then
      ["Renew insurance policy", "Provide updated certificate"]
    else
      ["Manual verification required", "Provide additional documentation"]
  { totalVerifications := vs.length
    completedVerifications := completed
    failedVerifications := failed
    coverageStatus := covFlags.1
    flags := covFlags.2
    recommendations := recs }

/-- Result of `performComprehensiveInsuranceVerification`. -/
structure InsRunResult where
  verifications : List (String × StepOutcome VerificationResult)
  overallStatus : OverallStatus
  summary : InsSummary
  deriving DecidableEq, Repr

def performComprehensiveInsuranceVerification (d : DriverData) (a : InsAdapters) :
    InsRunResult :=
  let vs := insuranceVerifications d a
  { verifications := vs
    overallStatus := aggregateStatus vs
    summary := generateVerificationSummary vs }

/-! ## Top-level onboarding workflow (integration service) -/

/-- The top-level onboarding summary object. `estimatedCompletion` is always
assigned by the source, so it is a plain string here. -/
structure OnbSummary where
  totalSteps : Nat
  completedSteps : Nat
  failedSteps : Nat
  pendingSteps : Nat
  riskLevel : RiskLevel
  flags : List String
  estimatedCompletion : String
  deriving DecidableEq, Repr

/-- `generateOnboardingSummary(steps)` of the integration service. With the
two-constructor `StepOutcome`, the forEach else-branch (`pendingSteps`) is
`total - completed - failed`. -/
def generateOnboardingSummary (steps : List (String × StepOutcome r)) : OnbSummary :=
  let total := steps.length
  let completed := countCompleted steps
  let failed := countFailed steps
  let pending := total - completed - failed
  let riskFlags :=
    if failed > 2 then (RiskLevel.high, ["Multiple critical steps failed"])
    else if failed > 0 then (RiskLevel.medium, ["Some steps require attention"])
    else (RiskLevel.low, ([] : List String))
  let est :=
    if pending = 0 then "Immediate"
    else if pending ≤ 2 then "1-2 business days"
    else "3-5 business days"
  { totalSteps := total, completedSteps := completed, failedSteps := failed,
    pendingSteps := pending, riskLevel := riskFlags.1, flags := riskFlags.2,
    estimatedCompletion := est }

/-- `steps[name]` on the recorded step map. -/
def lookupStep (steps : List (String × StepOutcome r)) (name : String) :
    Option (StepOutcome r) :=
  (steps.find? fun e => e.1 == name).map (·.2)

/-- `steps[name]?.status === 'failed'`. -/
def stepFailed (steps : List (String × StepOutcome r)) (name : String) : Bool :=
  match lookupStep steps name with
  | some o => o.isFailed
  | none => false

/-- `generateOnboardingRecommendations(steps)`: fixed remediation text per
failed step type, then a closing recommendation keyed on the
completed/total ratio (`completedSteps > totalSteps / 2` over the rationals,
i.e. `2 * completed > total`). -/
def generateOnboardingRecommendations (steps : List (String × StepOutcome r)) :
    List String :=
  (if stepFailed steps "backgroundCheck" then
    ["Review background check requirements",
     "Provide additional identification documents"]
   else []) ++
  (if stepFailed steps "insuranceVerification" then
    ["Verify insurance policy information",
     "Ensure policy is active and not expired",
     "Check coverage limits meet requirements"]
   else []) ++
  (if stepFailed steps "payment" then
    ["Verify payment method information",
     "Ensure sufficient funds are available",
     "Check for any payment restrictions"]
   else []) ++
  (if stepFailed steps "documentStorage" then
    ["Ensure all required documents are provided",
     "Check document format and size requirements",
     "Verify document authenticity"]
   else []) ++
  (let completed := countCompleted steps
   let total := steps.length
   if completed = total then
     ["Onboarding completed successfully", "Driver is ready for activation"]
   else if 2 * completed > total then
     ["Onboarding is mostly complete", "Address remaining issues to finish"]
   else
     ["Onboarding requires significant attention", "Manual review may be necessary"])

/-- The mutable `onboardingResult` object threaded through
`performCompleteOnboarding` (payload type of the five steps abstracted
as `r`). -/
structure OnbState (r : Type) where
  driverId : String
  startedAt : String
  backgroundCheck : Option (StepOutcome r) := none
  insuranceVerification : Option (StepOutcome r) := none
  payment : Option (StepOutcome r) := none
  documentStorage : Option (StepOutcome r) := none
  databaseUpdate : Option (StepOutcome r) := none
  overallStatus : OverallStatus := .pending
  completedAt : Option String := none
  summary : Option OnbSummary := none
  recommendations : List String := []

/-- `onboardingResult.steps` in insertion order (only the recorded steps). -/
def OnbState.stepsList (s : OnbState r) : List (String × StepOutcome r) :=
  (match s.backgroundCheck with | some o => [("backgroundCheck", o)] | none => []) ++
  (match s.insuranceVerification with | some o => [("insuranceVerification", o)] | none => []) ++
  (match s.payment with | some o => [("payment", o)] | none => []) ++
  (match s.documentStorage with | some o => [("documentStorage", o)] | none => []) ++
  (match s.databaseUpdate with | some o => [("databaseUpdate", o)] | none => [])

/-- `step?.status || 'pending'` as stored in an `onboarding_records`
column. -/
def stepStatusString (o : Option (StepOutcome r)) : String :=
  match o with
  | some (.completed _) => "completed"
  | some (.failed _) => "failed"
  | none => "pending"

/-- The row inserted into `onboarding_records` by
`updateOnboardingStatus`. -/
structure OnboardingRecordRow where
  driverId : String
  overallStatus : OverallStatus
  backgroundCheckStatus : String
  insuranceStatus : String
  paymentStatus : String
  documentStatus : String
  databaseStatus : String
  startedAt : String
  completedAt : Option String
  summaryData : Option OnbSummary
  recommendationsData : List String

/-- The `VALUES` tuple of the `INSERT INTO onboarding_records` statement,
built from the `onboardingResult` snapshot passed to
`updateOnboardingStatus` (a missing `completedAt` is inserted as NULL). -/
def buildOnboardingRow (s : OnbState r) : OnboardingRecordRow :=
  { driverId := s.driverId
    overallStatus := s.overallStatus
    backgroundCheckStatus := stepStatusString s.backgroundCheck
    insuranceStatus := stepStatusString s.insuranceVerification
    paymentStatus := stepStatusString s.payment
    documentStatus := stepStatusString s.documentStorage
    databaseStatus := stepStatusString s.databaseUpdate
    startedAt := s.startedAt
    completedAt := s.completedAt
    summaryData := s.summary
    recommendationsData := s.recommendations }

/-- Outcomes the five onboarding step invocations would produce for this
run. The database-update step receives the row it is about to insert. -/
structure OnbAdapters (r : Type) where
  backgroundCheck : Except String r
  insuranceVerification : Except String r
  payment : Except String r
  documentStorage : Except String r
  databaseUpdate : OnboardingRecordRow → Except String r

/-- A finished `performCompleteOnboarding` call: the returned
`onboardingResult` plus the `onboarding_records` row the database step
inserted. -/
structure OnbRun (r : Type) where
  final : OnbState r
  insertedRow : OnboardingRecordRow

/-- `performCompleteOnboarding(driverData)`: the five steps run
sequentially, each failure caught into a `failed` step entry; the database
step (step 5) persists the snapshot as it stands before the overall status,
`completedAt`, summary and recommendations are computed. -/
def performCompleteOnboarding (driverId startedAt finishedAt : String)
    (a : OnbAdapters r) : OnbRun r :=
  let s0 : OnbState r := { driverId := driverId, startedAt := startedAt }
  let s1 := { s0 with backgroundCheck := some (toStepOutcome a.backgroundCheck) }
  let s2 := { s1 with insuranceVerification := some (toStepOutcome a.insuranceVerification) }
  let s3 := { s2 with payment := some (toStepOutcome a.payment) }
  let s4 := { s3 with documentStorage := some (toStepOutcome a.documentStorage) }
  let row := buildOnboardingRow s4
  let s5 := { s4 with databaseUpdate := some (toStepOutcome (a.databaseUpdate row)) }
  let steps := s5.stepsList
  let final :=
    { s5 with
      overallStatus := aggregateStatus steps
      completedAt := some finishedAt
      summary := some (generateOnboardingSummary steps)
      recommendations := generateOnboardingRecommendations steps }
  { final := final, insertedRow := row }

/-! ## Retry coordinator -/

/-- The stored `onboarding_records` row as seen by the per-step update: a
per-step `<step>_status` / `<step>_result` column family plus the run
timestamps (`stepResult` holds the JSON-serialized step result). -/
structure OnboardingRecord where
  stepStatus : String → String
  stepResult : String → Option String
  startedAt : String
  completedAt : Option String
  updatedAt : String

/-- `updateOnboardingStepStatus(driverId, stepName, status, result)`: the
UPDATE sets only `${stepName}_status`, `${stepName}_result` and
`updated_at`. -/
def updateOnboardingStepStatus (stored : OnboardingRecord) (stepName status : String)
    (result : Option String) (now : String) : OnboardingRecord :=
  { stored with
    stepStatus := fun c => if c = stepName then status else stored.stepStatus c
    stepResult := fun c => if c = stepName then result else stored.stepResult c
    updatedAt := now }

/-- Outcomes the four retryable step adapters would produce for this retry
(invoked on the freshly fetched driver data). -/
structure RetryAdapters (r : Type) where
  backgroundCheck : Except String r
  insuranceVerification : Except String r
  payment : Except String r
  documentStorage : Except String r

/-- The `{stepName, status: 'retried', result, retryAt}` object returned on
a successful retry. -/
structure RetryReturn (r : Type) where
  stepName : String
  status : String
  result : r
  retryAt : String
  deriving Repr

/-- The `switch (stepName)` dispatch of `retryOnboardingStep`: the adapter
invocation each known case performs, `none` for the default branch. -/
def retryStepCall (a : RetryAdapters r) (stepName : String) : Option (Except String r) :=
  if stepName = "backgroundCheck" then some a.backgroundCheck
  else if stepName = "insuranceVerification" then some a.insuranceVerification
  else if stepName = "payment" then some a.payment
  else if stepName = "documentStorage" then some a.documentStorage
  else none

/-- `retryOnboardingStep(driverId, stepName)`. Returns the call's outcome
(`Except.error` models a thrown error), the stored row after the call, and
the list of adapter invocations performed. The subject is re-fetched first
(`getDriver`); an unknown step name throws before any adapter runs; an
adapter failure is logged and re-thrown by the catch block; on success the
step's stored status is overwritten with 'completed' plus the serialized
result. -/
def retryOnboardingStep (stored : OnboardingRecord) (getDriver : Except String DriverData)
    (a : RetryAdapters r) (stepName now : String) (serialize : r → String) :
    Except String (RetryReturn r) × OnboardingRecord × List String :=
  match getDriver with
  | .error e => (.error e, stored, [])
  | .ok _ =>
    match retryStepCall a stepName with
    | none => (.error ("Unknown step: " ++ stepName), stored, [])
    | some (.error e) => (.error e, stored, [stepName])
    | some (.ok res) =>
      let stored2 := updateOnboardingStepStatus stored stepName "completed"
        (some (serialize res)) now
      (.ok { stepName := stepName, status := "retried", result := res, retryAt := now },
       stored2, [stepName])

/-! ## Helper lemmas -/

theorem countCompleted_le (steps : List (String × StepOutcome r)) :
    countCompleted steps ≤ steps.length :=
  List.length_filter_le _ _

/-- Processing a settled array of wrapped step promises records each entry
under its own tag with the call's outcome, independently of position. -/
theorem processSettledAux_settleAll (types : List String)
    (pushes : List (String × Except String r)) :
    ∀ i, processSettledAux types i (settleAll pushes) =
      pushes.map (fun p => (p.1, toStepOutcome p.2)) := by
  induction pushes with
  | nil => intro i; rfl
  | cons p ps ih =>
    intro i
    cases hp : p.2 <;>
      simp [settleAll, settleStep, processSettledAux, toStepOutcome, hp, ih (i + 1)] <;>
      simpa [settleAll] using ih (i + 1)

theorem backgroundChecks_eq (creditEnabled : Bool) (a : BgAdapters) :
    backgroundChecks creditEnabled a =
      (backgroundPushes creditEnabled a).map (fun p => (p.1, toStepOutcome p.2)) :=
  processSettledAux_settleAll _ _ 0

theorem insuranceVerifications_eq (d : DriverData) (a : InsAdapters) :
    insuranceVerifications d a =
      (insurancePushes d a).map (fun p => (p.1, toStepOutcome p.2)) :=
  processSettledAux_settleAll _ _ 0

theorem backgroundChecks_ne_nil (creditEnabled : Bool) (a : BgAdapters) :
    backgroundChecks creditEnabled a ≠ [] := by
  rw [backgroundChecks_eq]
  cases creditEnabled <;> simp [backgroundPushes]

theorem insuranceVerifications_ne_nil (d : DriverData) (a : InsAdapters) :
    insuranceVerifications d a ≠ [] := by
  rw [insuranceVerifications_eq]
  cases hp : hasPolicyNumber d <;> cases hv : hasVin d <;> cases hb : hasBusinessName d <;>
    simp [insurancePushes, hp, hv, hb]

theorem onboarding_stepsList_length (driverId startedAt finishedAt : String)
    (a : OnbAdapters r) :
    ((performCompleteOnboarding driverId startedAt finishedAt a).final.stepsList).length = 5 :=
  rfl

theorem deriveOverallStatus_ne_pending (c t : Nat) :
    deriveOverallStatus c t ≠ OverallStatus.pending := by
  unfold deriveOverallStatus
  split_ifs <;> simp

/-! ## Claim theorems -/

/-- C1: for every step-outcome map produced by a workflow run, with C the
count of completed steps and T the total recorded steps, the derived
overallStatus is 'completed' iff C = T, 'partial' iff 0 < C < T, and
'failed' iff C = 0 — a strict three-way partition (each produced map has
T ≥ 1: the three workflows' maps are listed as nonempty, and their
overallStatus is exactly this aggregation). -/
theorem overall_status_partition :
    (∀ (r : Type) (steps : List (String × StepOutcome r)), steps ≠ [] →
      ((aggregateStatus steps = OverallStatus.completed ↔
          countCompleted steps = steps.length) ∧
        (aggregateStatus steps = OverallStatus.partiallyCompleted ↔
          0 < countCompleted steps ∧ countCompleted steps < steps.length) ∧
        (aggregateStatus steps = OverallStatus.failed ↔ countCompleted steps = 0))) ∧
    (∀ (ce : Bool) (ba : BgAdapters),
      (performComprehensiveBackgroundCheck ce ba).overallStatus =
          aggregateStatus (backgroundChecks ce ba) ∧
        backgroundChecks ce ba ≠ []) ∧
    (∀ (d : DriverData) (ia : InsAdapters),
      (performComprehensiveInsuranceVerification d ia).overallStatus =
          aggregateStatus (insuranceVerifications d ia) ∧
        insuranceVerifications d ia ≠ []) ∧
    (∀ (r : Type) (i st fin : String) (oa : OnbAdapters r),
      (performCompleteOnboarding i st fin oa).final.overallStatus =
          aggregateStatus (performCompleteOnboarding i st fin oa).final.stepsList ∧
        (performCompleteOnboarding i st fin oa).final.stepsList ≠ []) := by
  refine ⟨?_, ?_, ?_, ?_⟩
  · intro r steps hne
    have hle : countCompleted steps ≤ steps.length := countCompleted_le steps
    have hT : 0 < steps.length := List.length_pos.mpr hne
    unfold aggregateStatus deriveOverallStatus
    split_ifs with h1 h2 <;> refine ⟨?_, ?_, ?_⟩ <;> simp <;> omega
  · intro ce ba
    exact ⟨rfl, backgroundChecks_ne_nil ce ba⟩
  · intro d ia
    exact ⟨rfl, insuranceVerifications_ne_nil d ia⟩
  · intro r i st fin oa
    refine ⟨rfl, ?_⟩
    have h := onboarding_stepsList_length i st fin oa
    intro hnil
    rw [hnil] at h
    simp at h

/-- Witness for C1 at a concrete one-step map whose single step failed. -/
theorem overall_status_partition_witness :
    aggregateStatus [("backgroundCheck", StepOutcome.failed (r := Unit) "boom")] =
      OverallStatus.failed :=
  ((overall_status_partition.1 Unit _ (by decide)).2.2).mpr (by decide)

/-- C5 counterexample: on a step map with zero entries the derivation takes
the C = T branch and yields 'completed', not 'failed' as claimed. -/
theorem empty_steps_status_counterexample :
    aggregateStatus ([] : List (String × StepOutcome CheckResult)) =
        OverallStatus.completed ∧
      OverallStatus.completed ≠ OverallStatus.failed := by
  exact ⟨rfl, by decide⟩

/-- C5 amended: the aggregation is not defensive — applied to an empty step
map (T = 0) it derives 'completed' (the C = T branch fires first); the case
is unreachable in practice because every workflow run records at least one
step (the background-check and insurance maps are nonempty and the
onboarding map always has exactly five steps). -/
theorem empty_steps_status_amended :
    aggregateStatus ([] : List (String × StepOutcome CheckResult)) =
        OverallStatus.completed ∧
      (∀ (ce : Bool) (ba : BgAdapters), backgroundChecks ce ba ≠ []) ∧
      (∀ (d : DriverData) (ia : InsAdapters), insuranceVerifications d ia ≠ []) ∧
      (∀ (r : Type) (i st fin : String) (oa : OnbAdapters r),
        ((performCompleteOnboarding i st fin oa).final.stepsList).length = 5) := by
  exact ⟨rfl, backgroundChecks_ne_nil, insuranceVerifications_ne_nil,
    fun r i st fin oa => onboarding_stepsList_length i st fin oa⟩

/-- Adapter outcomes where the criminal check reports criminal history and
the driving check reports 5 violations (employment verified, credit
disabled). -/
def bgOverwriteAdapters : BgAdapters where
  criminal := .ok { summary := { hasCriminalHistory := true } }
  driving := .ok { summary := { totalViolations := 5 } }
  employment := .ok { summary := { verified := true } }
  credit := .ok {}

/-- C2 counterexample: with criminal history detected AND more than 3
driving violations, the recorded riskLevel is 'medium', not 'high' — the
driving rule overwrites the 'high' set by the criminal rule. -/
theorem bg_risk_overwrite_counterexample :
    (performComprehensiveBackgroundCheck false bgOverwriteAdapters).summary.riskLevel =
        RiskLevel.medium ∧
      RiskLevel.medium ≠ RiskLevel.high := by
  exact ⟨by decide, by decide⟩

/-- The checks map in the source's recorded order (criminal, driving,
employment), with the given criminal-history flag, driving-violation count
and employment-verified flag. -/
def canonicalChecks (crim : Bool) (violations : Nat) (empVerified : Bool) :
    List (String × StepOutcome CheckResult) :=
  [("criminal", .completed { summary := { hasCriminalHistory := crim } }),
   ("driving", .completed { summary := { totalViolations := violations } }),
   ("employment", .completed { summary := { verified := empVerified } })]

/-- C2 amended: the criminal rule sets risk 'high', but a driving-violation
count greater than 3 or an unconfirmed employment verification sets the
risk to 'medium' unconditionally, overwriting an already-'high' level; so
with criminal history AND more than 3 violations the final riskLevel is
'medium' (both flags recorded), with criminal history AND an unconfirmed
employment (at most 3 violations) it is likewise 'medium' (the employment
rule overwrites the 'high'), while with at most 3 violations and a verified
employment it stays 'high' with the Scenario-C recommendations. -/
theorem bg_risk_overwrite_amended (n m : Nat) (hn : 3 < n) (hm : m ≤ 3) :
    (generateSummary (canonicalChecks true n true)).riskLevel = RiskLevel.medium ∧
      (generateSummary (canonicalChecks true n true)).flags =
        ["Criminal history detected", "Multiple driving violations"] ∧
      (generateSummary (canonicalChecks true m false)).riskLevel = RiskLevel.medium ∧
      (generateSummary (canonicalChecks true m false)).flags =
        ["Criminal history detected", "Employment verification failed"] ∧
      (generateSummary (canonicalChecks true m true)).riskLevel = RiskLevel.high ∧
      (generateSummary (canonicalChecks true m true)).flags =
        ["Criminal history detected"] ∧
      (generateSummary (canonicalChecks true m true)).recommendations =
        ["Manual review required", "Additional documentation may be needed"] := by
  have hm' : ¬ (3 < m) := Nat.not_lt.mpr hm
  refine ⟨?_, ?_, ?_, ?_, ?_, ?_, ?_⟩ <;>
    simp [generateSummary, canonicalChecks, bgAnalyzeStep, hn, hm']

/-- Witness for C2's amended theorem: at 5 violations the driving rule
overwrites 'high' to 'medium'; at 0 violations with an unconfirmed
employment the employment rule overwrites 'high' to 'medium'; at 0
violations with a verified employment the risk stays 'high'. -/
theorem bg_risk_overwrite_amended_witness :
    (generateSummary (canonicalChecks true 5 true)).riskLevel = RiskLevel.medium ∧
      (generateSummary (canonicalChecks true 0 false)).riskLevel = RiskLevel.medium ∧
      (generateSummary (canonicalChecks true 0 true)).riskLevel = RiskLevel.high :=
  ⟨(bg_risk_overwrite_amended 5 0 (by decide) (by decide)).1,
   (bg_risk_overwrite_amended 5 0 (by decide) (by decide)).2.2.1,
   (bg_risk_overwrite_amended 5 0 (by decide) (by decide)).2.2.2.2.1⟩

/-- C9: the `onboarding_records` row inserted by the databaseUpdate step
(step 5) always carries overall_status 'pending', database_status 'pending'
and a NULL completed_at, because it persists the snapshot taken before the
overall status, completedAt, summary and recommendations are computed; the
overallStatus the call finally returns is never 'pending', so the stored
row never reflects it. -/
theorem db_write_snapshot (r : Type) (i st fin : String) (a : OnbAdapters r) :
    (performCompleteOnboarding i st fin a).insertedRow.overallStatus =
        OverallStatus.pending ∧
      (performCompleteOnboarding i st fin a).insertedRow.databaseStatus = "pending" ∧
      (performCompleteOnboarding i st fin a).insertedRow.completedAt = none ∧
      (performCompleteOnboarding i st fin a).insertedRow.summaryData = none ∧
      (performCompleteOnboarding i st fin a).final.overallStatus ≠
        OverallStatus.pending := by
  refine ⟨rfl, rfl, rfl, rfl, ?_⟩
  exact deriveOverallStatus_ne_pending _ _

/-- Retry adapters (unit payload) that all succeed. -/
def retryAllOkUnitAdapters : RetryAdapters Unit where
  backgroundCheck := .ok ()
  insuranceVerification := .ok ()
  payment := .ok ()
  documentStorage := .ok ()

/-- Retry adapters (unit payload) whose background-check call fails. -/
def retryBgFailUnitAdapters : RetryAdapters Unit where
  backgroundCheck := .error "Background check failed: boom"
  insuranceVerification := .ok ()
  payment := .ok ()
  documentStorage := .ok ()

/-- C6: a retry with a step name outside the retryable registry throws
`Unknown step: <name>` from the switch default before any adapter is
invoked (empty invocation list) and leaves the stored record unchanged. -/
theorem retry_unknown_step (stored : OnboardingRecord) (d : DriverData)
    (a : RetryAdapters r) (step now : String) (serialize : r → String)
    (h1 : step ≠ "backgroundCheck") (h2 : step ≠ "insuranceVerification")
    (h3 : step ≠ "payment") (h4 : step ≠ "documentStorage") :
    retryOnboardingStep stored (.ok d) a step now serialize =
      (.error ("Unknown step: " ++ step), stored, []) := by
  simp [retryOnboardingStep, retryStepCall, h1, h2, h3, h4]

/-- Witness for C6 at the unknown step name 'databaseUpdate' (recorded by
the full run but not retryable). -/
theorem retry_unknown_step_witness :
    retryOnboardingStep
        { stepStatus := fun _ => "failed", stepResult := fun _ => none,
          startedAt := "t0", completedAt := some "t1", updatedAt := "t1" }
        (.ok {}) retryAllOkUnitAdapters "databaseUpdate" "t2" (fun _ => "{}") =
      (.error "Unknown step: databaseUpdate",
        { stepStatus := fun _ => "failed", stepResult := fun _ => none,
          startedAt := "t0", completedAt := some "t1", updatedAt := "t1" },
        []) :=
  retry_unknown_step _ _ _ _ _ _ (by decide) (by decide) (by decide) (by decide)

/-- C4 counterexample: with a failing background-check adapter, the retry
call's outcome is a thrown error (`Except.error`), not a returned 'failed'
StepOutcome. -/
theorem retry_failure_counterexample :
    (retryOnboardingStep
          { stepStatus := fun _ => "failed", stepResult := fun _ => none,
            startedAt := "t0", completedAt := some "t1", updatedAt := "t1" }
          (.ok {}) retryBgFailUnitAdapters "backgroundCheck" "t2" (fun _ => "{}")).1 =
      Except.error "Background check failed: boom" := by
  rfl

/-- C4 amended: when the re-invoked step's adapter fails,
`retryOnboardingStep` propagates the adapter's error as a thrown error (the
catch block logs and re-throws) and performs no database write; the caller
receives the exception, not a 'failed' StepOutcome. -/
theorem retry_failure_propagates_amended (stored : OnboardingRecord) (d : DriverData)
    (a : RetryAdapters r) (step now : String) (serialize : r → String) (e : String)
    (hcall : retryStepCall a step = some (.error e)) :
    retryOnboardingStep stored (.ok d) a step now serialize =
      (.error e, stored, [step]) := by
  simp [retryOnboardingStep, hcall]

/-- Witness for C4's amended theorem at a concrete failing adapter. -/
theorem retry_failure_propagates_amended_witness :
    retryOnboardingStep
        { stepStatus := fun _ => "failed", stepResult := fun _ => none,
          startedAt := "t0", completedAt := some "t1", updatedAt := "t1" }
        (.ok {}) retryBgFailUnitAdapters "backgroundCheck" "t2" (fun _ => "{}") =
      (.error "Background check failed: boom",
        { stepStatus := fun _ => "failed", stepResult := fun _ => none,
          startedAt := "t0", completedAt := some "t1", updatedAt := "t1" },
        ["backgroundCheck"]) :=
  retry_failure_propagates_amended _ _ _ _ _ _ _ (by rfl)

/-- C7: whatever branch a retry of step X takes, the stored record after the
call agrees with the record before it on the startedAt and completedAt
timestamps and, for every step name other than X, on that step's stored
status and result columns (the UPDATE touches only X's two columns plus
updated_at, and can neither remove nor duplicate a column). -/
theorem retry_frame (stored : OnboardingRecord) (getDriver : Except String DriverData)
    (a : RetryAdapters r) (step now : String) (serialize : r → String) :
    ((retryOnboardingStep stored getDriver a step now serialize).2.1.startedAt =
        stored.startedAt) ∧
      ((retryOnboardingStep stored getDriver a step now serialize).2.1.completedAt =
        stored.completedAt) ∧
      (∀ other : String, other ≠ step →
        ((retryOnboardingStep stored getDriver a step now serialize).2.1.stepStatus other =
            stored.stepStatus other ∧
          (retryOnboardingStep stored getDriver a step now serialize).2.1.stepResult other =
            stored.stepResult other)) := by
  cases getDriver with
  | error e => exact ⟨rfl, rfl, fun other _ => ⟨rfl, rfl⟩⟩
  | ok d =>
    cases hcall : retryStepCall a step with
    | none => simp [retryOnboardingStep, hcall]
    | some c =>
      cases c with
      | error e => simp [retryOnboardingStep, hcall]
      | ok res =>
        refine ⟨?_, ?_, ?_⟩ <;>
          simp [retryOnboardingStep, hcall, updateOnboardingStepStatus]
        intro other hother
        simp [hother]

/-- Witness for C7: a successful retry of the payment step leaves the
backgroundCheck column pair and the run timestamps untouched. -/
theorem retry_frame_witness :
    ((retryOnboardingStep
            { stepStatus := fun _ => "failed", stepResult := fun _ => none,
              startedAt := "t0", completedAt := some "t1", updatedAt := "t1" }
            (.ok {}) retryAllOkUnitAdapters "payment" "t2" (fun _ => "{}")).2.1.stepStatus
          "backgroundCheck" = "failed") ∧
      ((retryOnboardingStep
            { stepStatus := fun _ => "failed", stepResult := fun _ => none,
              startedAt := "t0", completedAt := some "t1", updatedAt := "t1" }
            (.ok {}) retryAllOkUnitAdapters "payment" "t2" (fun _ => "{}")).2.1.startedAt =
        "t0") := by
  have h := retry_frame
    { stepStatus := fun _ => "failed", stepResult := fun _ => none,
      startedAt := "t0", completedAt := some "t1", updatedAt := "t1" }
    (.ok {}) retryAllOkUnitAdapters "payment" "t2" (fun _ => "{}")
  exact ⟨(h.2.2 "backgroundCheck" (by decide)).1, h.1⟩

/-- Insurance adapters that all succeed with an empty result. -/
def insAllOkAdapters : InsAdapters where
  policy := .ok {}
  driver := .ok {}
  vehicle := .ok {}
  commercial := .ok {}

/-- Scenario-A subject: policy number and VIN present, no business info. -/
def scenarioADriver : DriverData where
  insuranceInfo := some { policyNumber := some "POL-1" }
  vehicleInfo := some { vin := some "VIN-1" }
  businessInfo := none

/-- C8: insurance step scheduling is a deterministic function of the
subject's fields — the recorded step keys (for any adapter outcomes) are
exactly `scheduledInsuranceSteps`, the policy/vehicle/commercial steps are
scheduled iff the respective field is present, the driver-based search
always; a subject with policy number and VIN and no business info schedules
exactly {policy, driver, vehicle}. -/
theorem insurance_step_scheduling (d : DriverData) (a : InsAdapters) :
    ((insuranceVerifications d a).map Prod.fst = scheduledInsuranceSteps d) ∧
      ("policy" ∈ scheduledInsuranceSteps d ↔ hasPolicyNumber d = true) ∧
      ("vehicle" ∈ scheduledInsuranceSteps d ↔ hasVin d = true) ∧
      ("commercial" ∈ scheduledInsuranceSteps d ↔ hasBusinessName d = true) ∧
      ("driver" ∈ scheduledInsuranceSteps d) ∧
      (hasPolicyNumber d = true → hasVin d = true → hasBusinessName d = false →
        scheduledInsuranceSteps d = ["policy", "driver", "vehicle"]) := by
  cases hp : hasPolicyNumber d <;> cases hv : hasVin d <;> cases hb : hasBusinessName d <;>
    simp [insuranceVerifications_eq, insurancePushes, scheduledInsuranceSteps, hp, hv, hb]

/-- Witness for C8 at the Scenario-A subject. -/
theorem insurance_step_scheduling_witness :
    scheduledInsuranceSteps scenarioADriver = ["policy", "driver", "vehicle"] :=
  (insurance_step_scheduling scenarioADriver insAllOkAdapters).2.2.2.2.2
    (by decide) (by decide) (by decide)

/-- Every wrapped step promise settles as fulfilled: its `.catch` handler
turns any rejection into a fulfilled `{type, error}` value. -/
theorem settleAll_all_fulfilled (pushes : List (String × Except String r)) :
    (settleAll pushes).all Settled.isFulfilled = true := by
  induction pushes with
  | nil => rfl
  | cons p ps ih => simpa [settleAll, settleStep, Settled.isFulfilled] using ih

/-- Modelled from the claim's description: the fan-out outcomes keyed by
each step's own embedded type tag (never by array position). -/
def tagKeyedInsuranceOutcomes (d : DriverData) (a : InsAdapters) :
    List (String × StepOutcome VerificationResult) :=
  (if hasPolicyNumber d then [("policy", toStepOutcome a.policy)] else []) ++
    [("driver", toStepOutcome a.driver)] ++
    (if hasVin d then [("vehicle", toStepOutcome a.vehicle)] else []) ++
    (if hasBusinessName d then [("commercial", toStepOutcome a.commercial)] else [])

/-- Modelled from the claim's description: the background-check outcomes
keyed by each check's own embedded type tag. -/
def tagKeyedBackgroundOutcomes (creditEnabled : Bool) (a : BgAdapters) :
    List (String × StepOutcome CheckResult) :=
  [("criminal", toStepOutcome a.criminal), ("driving", toStepOutcome a.driving),
    ("employment", toStepOutcome a.employment)] ++
    (if creditEnabled then [("credit", toStepOutcome a.credit)] else [])

/-- C10: in both fan-outs every scheduled step promise settles as fulfilled
(the positional rejected branch is unreachable), and the recorded outcome
maps equal the tag-keyed maps — each outcome is attributed by the step's
own embedded type tag, for every gating combination and every adapter
behaviour. -/
theorem fanout_isolation_tag_keyed (d : DriverData) (ia : InsAdapters)
    (ce : Bool) (ba : BgAdapters) :
    ((insuranceFanOut d ia).all Settled.isFulfilled = true) ∧
      (insuranceVerifications d ia = tagKeyedInsuranceOutcomes d ia) ∧
      ((backgroundFanOut ce ba).all Settled.isFulfilled = true) ∧
      (backgroundChecks ce ba = tagKeyedBackgroundOutcomes ce ba) := by
  refine ⟨settleAll_all_fulfilled _, ?_, settleAll_all_fulfilled _, ?_⟩
  · rw [insuranceVerifications_eq]
    cases hp : hasPolicyNumber d <;> cases hv : hasVin d <;> cases hb : hasBusinessName d <;>
      simp [insurancePushes, tagKeyedInsuranceOutcomes, hp, hv, hb]
  · rw [backgroundChecks_eq]
    cases ce <;> simp [backgroundPushes, tagKeyedBackgroundOutcomes]

/-- Whether the policy adapter's result carries the given
`policyDetails.status` string. -/
def policyStatusIs (a : InsAdapters) (st : String) : Bool :=
  match a.policy with
  | .ok res => res.policyDetailsStatus == some st
  | .error _ => false

theorem hasActive_produced (d : DriverData) (a : InsAdapters) :
    hasActiveInsurance (insuranceVerifications d a) =
      (hasPolicyNumber d && policyStatusIs a "active") := by
  rw [insuranceVerifications_eq]
  cases hp : hasPolicyNumber d <;> cases hv : hasVin d <;> cases hb : hasBusinessName d <;>
    cases hpol : a.policy <;>
    simp [insurancePushes, hasActiveInsurance, isActivePolicy, policyStatusIs,
      toStepOutcome, hp, hv, hb, hpol]

theorem hasExpired_produced (d : DriverData) (a : InsAdapters) :
    hasExpiredInsurance (insuranceVerifications d a) =
      (hasPolicyNumber d && policyStatusIs a "expired") := by
  rw [insuranceVerifications_eq]
  cases hp : hasPolicyNumber d <;> cases hv : hasVin d <;> cases hb : hasBusinessName d <;>
    cases hpol : a.policy <;>
    simp [insurancePushes, hasExpiredInsurance, isExpiredPolicy, policyStatusIs,
      toStepOutcome, hp, hv, hb, hpol]

/-- A produced verification map holds at most one policy result, so it can
never report both an active and an expired policy. -/
theorem produced_policy_exclusive (d : DriverData) (a : InsAdapters) :
    ¬(hasActiveInsurance (insuranceVerifications d a) = true ∧
        hasExpiredInsurance (insuranceVerifications d a) = true) := by
  rw [hasActive_produced, hasExpired_produced]
  intro h
  obtain ⟨ha, he⟩ := h
  cases hpol : a.policy with
  | error e => simp [policyStatusIs, hpol] at ha
  | ok res =>
    simp [policyStatusIs, hpol] at ha he
    rw [ha.2] at he
    simp at he

/-- The if/else-if coverage classification, characterized in terms of the
three accumulated flags, valid whenever active and expired cannot both
hold. -/
theorem coverage_branches (vs : List (String × StepOutcome VerificationResult))
    (hx : ¬(hasActiveInsurance vs = true ∧ hasExpiredInsurance vs = true)) :
    ((generateVerificationSummary vs).coverageStatus = CoverageStatus.adequate ↔
        hasActiveInsurance vs = true ∧ hasExpiredInsurance vs = false ∧
          hasInsufficientCoverage vs = false) ∧
      ((generateVerificationSummary vs).coverageStatus = CoverageStatus.insufficient ↔
        hasActiveInsurance vs = true ∧ hasInsufficientCoverage vs = true) ∧
      ((generateVerificationSummary vs).coverageStatus = CoverageStatus.insufficient →
        "Insufficient liability coverage" ∈ (generateVerificationSummary vs).flags) ∧
      ((generateVerificationSummary vs).coverageStatus = CoverageStatus.expired ↔
        hasExpiredInsurance vs = true) ∧
      ((generateVerificationSummary vs).coverageStatus = CoverageStatus.unknown ↔
        hasActiveInsurance vs = false ∧ hasExpiredInsurance vs = false) := by
  cases hact : hasActiveInsurance vs <;> cases hexp : hasExpiredInsurance vs <;>
    cases huns : hasInsufficientCoverage vs <;>
    simp [generateVerificationSummary, hact, hexp, huns] at hx ⊢

/-- Scenario-D subject: only a policy number present. -/
def scenarioDDriver : DriverData where
  insuranceInfo := some { policyNumber := some "POL-1" }

/-- Scenario-D adapters: the policy verification completes with an active
policy whose liability coverage is 30000, below the 50000 floor. -/
def scenarioDAdapters : InsAdapters where
  policy := .ok { policyDetailsStatus := some "active", coverageLiability := some 30000 }
  driver := .ok {}
  vehicle := .ok {}
  commercial := .ok {}

/-- C3: on every produced verification map the coverageStatus is 'adequate'
exactly when an active policy was found and none expired and none was under
the 50000 floor; 'insufficient' (with the flag) exactly when an active
policy exists with liability under the floor; 'expired' exactly when an
expired policy was found; 'unknown' exactly otherwise; and the concrete
Scenario-D run (active policy, liability 30000) yields 'insufficient' with
the flag. -/
theorem coverage_classification (d : DriverData) (a : InsAdapters) :
    (((generateVerificationSummary (insuranceVerifications d a)).coverageStatus =
          CoverageStatus.adequate ↔
        hasActiveInsurance (insuranceVerifications d a) = true ∧
          hasExpiredInsurance (insuranceVerifications d a) = false ∧
          hasInsufficientCoverage (insuranceVerifications d a) = false) ∧
      ((generateVerificationSummary (insuranceVerifications d a)).coverageStatus =
          CoverageStatus.insufficient ↔
        hasActiveInsurance (insuranceVerifications d a) = true ∧
          hasInsufficientCoverage (insuranceVerifications d a) = true) ∧
      ((generateVerificationSummary (insuranceVerifications d a)).coverageStatus =
          CoverageStatus.insufficient →
        "Insufficient liability coverage" ∈
          (generateVerificationSummary (insuranceVerifications d a)).flags) ∧
      ((generateVerificationSummary (insuranceVerifications d a)).coverageStatus =
          CoverageStatus.expired ↔
        hasExpiredInsurance (insuranceVerifications d a) = true) ∧
      ((generateVerificationSummary (insuranceVerifications d a)).coverageStatus =
          CoverageStatus.unknown ↔
        hasActiveInsurance (insuranceVerifications d a) = false ∧
          hasExpiredInsurance (insuranceVerifications d a) = false)) ∧
    ((generateVerificationSummary
          (insuranceVerifications scenarioDDriver scenarioDAdapters)).coverageStatus =
        CoverageStatus.insufficient ∧
      "Insufficient liability coverage" ∈
        (generateVerificationSummary
          (insuranceVerifications scenarioDDriver scenarioDAdapters)).flags) := by
  exact ⟨coverage_branches _ (produced_policy_exclusive d a), by decide, by decide⟩

/-- Witness for C3: the Scenario-D flag obtained through the classification
theorem's insufficient branch. -/
theorem coverage_classification_witness :
    "Insufficient liability coverage" ∈
      (generateVerificationSummary
        (insuranceVerifications scenarioDDriver scenarioDAdapters)).flags :=
  ((coverage_classification scenarioDDriver scenarioDAdapters).1.2.2.1) (by decide)

/-- Onboarding adapters (unit payload) that all succeed. -/
def onbAllOkUnitAdapters : OnbAdapters Unit where
  backgroundCheck := .ok ()
  insuranceVerification := .ok ()
  payment := .ok ()
  documentStorage := .ok ()
  databaseUpdate := fun _ => .ok ()

/-- Witness for C9 at a concrete all-success run. -/
theorem db_write_snapshot_witness :
    (performCompleteOnboarding "d1" "t0" "t1" onbAllOkUnitAdapters).insertedRow.overallStatus =
      OverallStatus.pending :=
  (db_write_snapshot Unit "d1" "t0" "t1" onbAllOkUnitAdapters).1

/-- Witness for C5's amended theorem: a concrete background-check run
records a nonempty step map. -/
theorem empty_steps_status_amended_witness :
    backgroundChecks false bgOverwriteAdapters ≠ [] :=
  empty_steps_status_amended.2.1 false bgOverwriteAdapters

end Onboarding
